import Mathlib

/-!
Shallow embedding of the WeSolve backend: an Express application (`app.ts`)
over a Supabase/Postgres store (`db/setup.sql`).  Tables become lists of rows,
the store's query operators (`eq`, `ilike`, `or`, `order`, `limit`, `upsert`,
`delete`) become the corresponding list operations, and each HTTP route becomes
a function from a database state and the request's inputs to a response (and,
for mutating routes, a new database state).  Timestamps are naturals; machine
strings are Lean strings, with ASCII-level case folding standing in for
Postgres/JS case folding.
-/

namespace WeSolve

/-! ## Data model (`db/setup.sql`) -/

/-- `role text check (role in ('SOLVER','AFFECTED'))` on `problem_matches`. -/
inductive Role where
  | SOLVER
  | AFFECTED
deriving DecidableEq

/-- A row of `public.users`: `id uuid`, `display_name text` (nullable),
`created_at timestamptz`. -/
structure UserRow where
  id : String
  display_name : Option String
  created_at : Nat
deriving DecidableEq

/-- A row of `public.problems`: `id`, `title`, `description`, `category`,
`location` all non-null, `country_code` nullable, `created_at`. -/
structure ProblemRow where
  id : String
  title : String
  description : String
  category : String
  location : String
  country_code : Option String
  created_at : Nat
deriving DecidableEq

/-- A row of `public.problem_matches`: surrogate `id`, foreign keys `user_id`
and `problem_id`, the `role`, and `created_at` (the match time). -/
structure MatchRow where
  id : String
  user_id : String
  problem_id : String
  role : Role
  created_at : Nat
deriving DecidableEq

/-- The database state: the three tables. -/
structure DB where
  users : List UserRow
  problems : List ProblemRow
  problem_matches : List MatchRow
deriving DecidableEq

/-! ## ASCII string helpers

JS `trim`/`toUpperCase` and Postgres `ILIKE` are modelled at the ASCII level
(every string in the system - UUIDs, role names, seed data - is ASCII). -/

/-- JS whitespace for `String.prototype.trim` (space, tab, LF, CR). -/
def isSpaceChar (c : Char) : Bool :=
  c.toNat = 32 || c.toNat = 9 || c.toNat = 10 || c.toNat = 13

/-- `trim` on a character list: drop whitespace from both ends. -/
def trimChars (l : List Char) : List Char :=
  ((l.dropWhile isSpaceChar).reverse.dropWhile isSpaceChar).reverse

/-- JS `String.prototype.trim`. -/
def strTrim (s : String) : String := ⟨trimChars s.data⟩

/-- Uppercase one ASCII character (JS `toUpperCase` on ASCII input). -/
def charUpperA (c : Char) : Char :=
  if 97 ≤ c.toNat ∧ c.toNat ≤ 122 then Char.ofNat (c.toNat - 32) else c

/-- JS `String.prototype.toUpperCase` (ASCII fragment). -/
def strUpper (s : String) : String := ⟨s.data.map charUpperA⟩

/-- Case-folded code of one ASCII character (for case-insensitive compare). -/
def lowerNat (c : Char) : Nat :=
  if 65 ≤ c.toNat ∧ c.toNat ≤ 90 then c.toNat + 32 else c.toNat

/-- Case-folded key of a string. -/
def lowerKey (s : String) : List Nat := s.data.map lowerNat

/-- Boolean list-prefix test on case-folded keys. -/
def isPrefixOfB : List Nat → List Nat → Bool
  | [], _ => true
  | _ :: _, [] => false
  | a :: as, b :: bs => a = b && isPrefixOfB as bs

/-- Boolean substring test: does `needle` occur inside the second list? -/
def containsSub (needle : List Nat) : List Nat → Bool
  | [] => isPrefixOfB needle []
  | b :: rest => isPrefixOfB needle (b :: rest) || containsSub needle rest

/-- Postgres `hay ILIKE '%pat%'` for a wildcard-free `pat`: case-insensitive
substring containment. -/
def containsCI (hay pat : String) : Bool :=
  containsSub (lowerKey pat) (lowerKey hay)

/-! ## `isUuid` (`app.ts` line 253)

`/^[0-9a-f]{8}-[0-9a-f]{4}-[1-5][0-9a-f]{3}-[89ab][0-9a-f]{3}-[0-9a-f]{12}$/i`.
The anchored pattern has exactly four dashes, so it is equivalent to splitting
on `-` into five all-hex groups of lengths 8/4/4/4/12 with the version nibble
in `1`-`5` and the variant nibble in `8,9,a,b` (case-insensitive). -/

/-- Split a character list at every dash. -/
def splitDash : List Char → List (List Char)
  | [] => [[]]
  | c :: rest =>
    if c = '-' then [] :: splitDash rest
    else
      match splitDash rest with
      | g :: gs => (c :: g) :: gs
      | [] => [[c]]

/-- `[0-9a-f]` with the `i` flag. -/
def isHexChar (c : Char) : Bool :=
  (48 ≤ c.toNat && c.toNat ≤ 57) || (97 ≤ c.toNat && c.toNat ≤ 102) ||
    (65 ≤ c.toNat && c.toNat ≤ 70)

/-- A group of exactly `n` hex digits. -/
def hexGroup (g : List Char) (n : Nat) : Bool :=
  g.length = n && g.all isHexChar

/-- First character of the group is the version nibble `[1-5]`. -/
def versionOk : List Char → Bool
  | v :: _ => 49 ≤ v.toNat && v.toNat ≤ 53
  | [] => false

/-- First character of the group is the variant nibble `[89ab]` (i-flag). -/
def variantOk : List Char → Bool
  | w :: _ =>
    w.toNat = 56 || w.toNat = 57 || w.toNat = 97 || w.toNat = 98 ||
      w.toNat = 65 || w.toNat = 66
  | [] => false

/-- `isUuid` from `app.ts`: the RFC 4122 version 1-5 pattern. -/
def isUuid (s : String) : Bool :=
  match splitDash s.data with
  | [g1, g2, g3, g4, g5] =>
    hexGroup g1 8 && hexGroup g2 4 && hexGroup g3 4 && hexGroup g4 4 &&
      hexGroup g5 12 && versionOk g3 && variantOk g4
  | _ => false

/-! ## `order('created_at', { ascending: false })`

The store's descending sort, as an insertion sort on a `Nat` key. -/

/-- Insert `x` into a descending-sorted list, keeping it sorted. -/
def insertDesc (key : α → Nat) (x : α) : List α → List α
  | [] => [x]
  | y :: ys => if key y ≤ key x then x :: y :: ys else y :: insertDesc key x ys

/-- Sort a list so the `key` values are descending. -/
def sortDesc (key : α → Nat) : List α → List α
  | [] => []
  | x :: xs => insertDesc key x (sortDesc key xs)

theorem insertDesc_perm (key : α → Nat) (x : α) (l : List α) :
    (insertDesc key x l).Perm (x :: l) := by
  induction l with
  | nil => exact List.Perm.refl _
  | cons y ys ih =>
    by_cases h : key y ≤ key x
    · simp [insertDesc, h]
    · simp only [insertDesc, if_neg h]
      exact (ih.cons y).trans (List.Perm.swap x y ys)

theorem sortDesc_perm (key : α → Nat) (l : List α) :
    (sortDesc key l).Perm l := by
  induction l with
  | nil => exact List.Perm.refl _
  | cons x xs ih =>
    exact (insertDesc_perm key x (sortDesc key xs)).trans (ih.cons x)

theorem mem_insertDesc {key : α → Nat} {x z : α} {l : List α} :
    z ∈ insertDesc key x l ↔ z = x ∨ z ∈ l := by
  rw [(insertDesc_perm key x l).mem_iff]
  simp

theorem mem_sortDesc {key : α → Nat} {z : α} {l : List α} :
    z ∈ sortDesc key l ↔ z ∈ l :=
  (sortDesc_perm key l).mem_iff

theorem insertDesc_sorted {key : α → Nat} {x : α} {l : List α}
    (h : l.Pairwise (fun a b => key b ≤ key a)) :
    (insertDesc key x l).Pairwise (fun a b => key b ≤ key a) := by
  induction l with
  | nil => simp [insertDesc]
  | cons y ys ih =>
    rcases List.pairwise_cons.mp h with ⟨hy, hys⟩
    by_cases hxy : key y ≤ key x
    · simp only [insertDesc, if_pos hxy]
      refine List.pairwise_cons.mpr ⟨?_, h⟩
      intro z hz
      rcases List.mem_cons.mp hz with rfl | hz
      · exact hxy
      · exact le_trans (hy z hz) hxy
    · simp only [insertDesc, if_neg hxy]
      refine List.pairwise_cons.mpr ⟨?_, ih hys⟩
      intro z hz
      rcases mem_insertDesc.mp hz with rfl | hz
      · exact le_of_lt (lt_of_not_le hxy)
      · exact hy z hz

theorem sortDesc_sorted (key : α → Nat) (l : List α) :
    (sortDesc key l).Pairwise (fun a b => key b ≤ key a) := by
  induction l with
  | nil => simp [sortDesc]
  | cons x xs ih => exact insertDesc_sorted ih

theorem length_sortDesc (key : α → Nat) (l : List α) :
    (sortDesc key l).length = l.length :=
  (sortDesc_perm key l).length_eq

/-! ## HTTP responses -/

/-- A route's outcome: a JSON success body, or `res.status(n).json({error})`. -/
inductive ApiResponse (α : Type) where
  | ok (body : α)
  | err (status : Nat) (msg : String)
deriving DecidableEq

/-! ## JWT layer

The `jsonwebtoken` library is an out-of-scope external collaborator (spec
section 1); it is modelled as an ideal signature scheme: signing produces a
tag binding the secret to the payload, and verification succeeds exactly when
the tag matches the token's payload under the given secret and the `exp`
claim lies in the future. -/

/-- The claims the app signs: `{ sub, typ }` plus the `exp` set by
`expiresIn: '30d'`. -/
structure JwtPayload where
  sub : String
  typ : String
  exp : Nat
deriving DecidableEq

/-- A token: its payload plus an unforgeable tag over (secret, payload). -/
structure Jwt where
  payload : JwtPayload
  sig : String × JwtPayload
deriving DecidableEq

/-- `expiresIn: '30d'`, in seconds. -/
def THIRTY_DAYS : Nat := 30 * 24 * 60 * 60

/-- `jwt.sign({ sub, typ }, secret, { expiresIn: '30d' })` at time `now`. -/
def jwtSign (secret : String) (now : Nat) (sub typ : String) : Jwt :=
  { payload := ⟨sub, typ, now + THIRTY_DAYS⟩
    sig := (secret, ⟨sub, typ, now + THIRTY_DAYS⟩) }

/-- `jwt.verify(token, secret)` at time `now`: checks the tag and the expiry,
returning the payload on success. -/
def jwtVerify (secret : String) (now : Nat) (t : Jwt) : Option JwtPayload :=
  if t.sig = (secret, t.payload) ∧ now < t.payload.exp then some t.payload
  else none

/-! ## Store lookups (`maybeSingle` on a primary key) -/

/-- `from('users').select(...).eq('id', uid).maybeSingle()`. -/
def findUser (db : DB) (uid : String) : Option UserRow :=
  db.users.find? (fun u => u.id = uid)

/-- `from('problems').select('id').eq('id', pid).maybeSingle()`. -/
def findProblem (db : DB) (pid : String) : Option ProblemRow :=
  db.problems.find? (fun p => p.id = pid)

/-! ## Auth middleware (`requireAuth`, `app.ts` lines 260-274)

The `Authorization` header either fails the `/^Bearer\s+(.+)$/i` match
(modelled as `none`) or carries a token. -/

/-- `requireAuth`: yields the authenticated user id or a 401. -/
def requireAuth (secret : String) (now : Nat) (auth : Option Jwt) :
    Except (Nat × String) String :=
  match auth with
  | none => .error (401, "Missing Authorization: Bearer <token>")
  | some t =>
    match jwtVerify secret now t with
    | none => .error (401, "Invalid or expired token")
    | some p =>
      if p.sub ≠ "" ∧ isUuid p.sub then .ok p.sub
      else .error (401, "Invalid token payload")

/-! ## `POST /login` (`app.ts` lines 290-302) -/

/-- `POST /login` with body `{ userId }` (`none` models a missing field). -/
def login (db : DB) (secret : String) (now : Nat) (userId : Option String) :
    ApiResponse (Jwt × UserRow) :=
  match userId with
  | none => .err 400 "userId must be a uuid"
  | some uid =>
    if ¬ isUuid uid then .err 400 "userId must be a uuid"
    else
      match findUser db uid with
      | none => .err 404 "User not found"
      | some u => .ok (jwtSign secret now uid "access", u)

/-! ## `GET /me` (`app.ts` lines 308-317) -/

/-- `GET /me`: authenticate, then look the user up again. -/
def getMe (db : DB) (secret : String) (now : Nat) (auth : Option Jwt) :
    ApiResponse UserRow :=
  match requireAuth secret now auth with
  | .error e => .err e.1 e.2
  | .ok userId =>
    match findUser db userId with
    | none => .err 404 "User not found"
    | some u => .ok u

/-! ## Match ledger: `POST /problems/:id/match` (`app.ts` lines 371-395) -/

/-- The `(user_id, problem_id)` key of the unique constraint. -/
def matchKeyEq (m : MatchRow) (uid pid : String) : Bool :=
  m.user_id = uid && m.problem_id = pid

/-- `upsert({user_id, problem_id, role}, { onConflict: 'user_id,problem_id' })`
followed by `.select(...).single()`: on conflict, PostgREST merge-duplicates
updates only the payload columns, so the conflicting row keeps its `id` and
`created_at` and gets the new `role`; otherwise a fresh row is inserted with
store-generated `id` and `created_at := now`.  Returns the affected row and
the new table. -/
def upsertMatch (ms : List MatchRow) (uid pid : String) (role : Role)
    (freshId : String) (now : Nat) : MatchRow × List MatchRow :=
  match ms.find? (fun m => matchKeyEq m uid pid) with
  | some m =>
    ({ m with role := role },
     ms.map (fun x => if matchKeyEq x uid pid then { x with role := role } else x))
  | none => (⟨freshId, uid, pid, role, now⟩, ms ++ [⟨freshId, uid, pid, role, now⟩])

/-- `POST /problems/:id/match` for an authenticated `userId`: validates the
problem id and the body's `role` (`none` models a missing field), checks the
problem exists, then upserts.  Returns the response and the new state. -/
def setMatch (db : DB) (userId problemId : String) (roleQ : Option String)
    (freshId : String) (now : Nat) : ApiResponse MatchRow × DB :=
  if ¬ isUuid problemId then (.err 400 "problem id must be a uuid", db)
  else if roleQ ≠ some "SOLVER" ∧ roleQ ≠ some "AFFECTED" then
    (.err 400 "role must be SOLVER or AFFECTED", db)
  else
    match findProblem db problemId with
    | none => (.err 404 "Problem not found", db)
    | some _ =>
      let role : Role := if roleQ = some "SOLVER" then .SOLVER else .AFFECTED
      let r := upsertMatch db.problem_matches userId problemId role freshId now
      (.ok r.1, { db with problem_matches := r.2 })

/-! ## `DELETE /problems/:id/match` (`app.ts` lines 400-410) -/

/-- `from('problem_matches').delete().eq('user_id', ...).eq('problem_id', ...)`:
drops every row with the key; deleting zero rows is not an error. -/
def removeMatch (db : DB) (userId problemId : String) :
    ApiResponse Unit × DB :=
  if ¬ isUuid problemId then (.err 400 "problem id must be a uuid", db)
  else
    (.ok (),
     { db with
        problem_matches :=
          db.problem_matches.filter (fun m => ! matchKeyEq m userId problemId) })

/-! ## `GET /problems` (`app.ts` lines 333-365) -/

/-- A response item of `GET /problems`: the problem's columns plus the
`problem_matches(count)` aggregate, coerced with `Number(... ?? 0)`. -/
structure ProblemItem where
  id : String
  title : String
  description : String
  category : String
  location : String
  country_code : Option String
  created_at : Nat
  collaboratorCount : Nat
deriving DecidableEq

/-- `typeof q === 'string' ? q.trim() : ''` (`none` models an absent or
non-string query parameter). -/
def normQuery (q : Option String) : String :=
  match q with
  | some s => strTrim s
  | none => ""

/-- The `country_code` filter input additionally gets `.toUpperCase()`. -/
def normCountry (q : Option String) : String := strUpper (normQuery q)

/-- The `problem_matches(count)` aggregate: how many Match rows reference
problem `pid`. -/
def matchCount (db : DB) (pid : String) : Nat :=
  (db.problem_matches.filter (fun m => m.problem_id = pid)).length

/-- The mapping from a problem row to a response item. -/
def annotateProblem (db : DB) (p : ProblemRow) : ProblemItem :=
  ⟨p.id, p.title, p.description, p.category, p.location, p.country_code,
   p.created_at, matchCount db p.id⟩

/-- `if (x) q = q.<filter>(...)`: chain a filter onto the query only when the
trimmed input is truthy (non-empty). -/
def filterIf (c : Bool) (p : α → Bool) (l : List α) : List α :=
  if c then l.filter p else l

/-- `GET /problems`: conditionally chain `eq('category')`, `eq('country_code')`,
`ilike('location')` and `or(title.ilike,description.ilike)` onto the query,
order by `created_at` descending, take 200, and annotate with the count. -/
def searchProblems (db : DB) (searchQ categoryQ locationQ countryQ : Option String) :
    List ProblemItem :=
  let search := normQuery searchQ
  let category := normQuery categoryQ
  let location := normQuery locationQ
  let country := normCountry countryQ
  let rows := db.problems
  let rows := filterIf (category ≠ "") (fun p => p.category = category) rows
  let rows := filterIf (country ≠ "") (fun p => p.country_code = some country) rows
  let rows := filterIf (location ≠ "") (fun p => containsCI p.location location) rows
  let rows := filterIf (search ≠ "")
    (fun p => containsCI p.title search || containsCI p.description search) rows
  ((sortDesc (fun p => p.created_at) rows).take 200).map (annotateProblem db)

/-- The spec's reading of the search predicate, written from its words: the
conjunction of the four active filters, with the title/description
disjunction inside the `search` conjunct only. -/
def specSearchPred (search category location country : String) (p : ProblemRow) :
    Bool :=
  (decide (category = "") || decide (p.category = category)) &&
  (decide (country = "") || decide (p.country_code = some country)) &&
  (decide (location = "") || containsCI p.location location) &&
  (decide (search = "") || containsCI p.title search || containsCI p.description search)

/-! ## `GET /problems/:id/users` (`app.ts` lines 416-442) -/

/-- The embedded `users (id, display_name)` join result as serialized:
`r.users?.id ?? null` and `r.users?.display_name ?? null`. -/
structure CollabUser where
  id : Option String
  display_name : Option String
deriving DecidableEq

/-- A response item of `GET /problems/:id/users`. -/
structure CollabItem where
  user : CollabUser
  role : Role
  matched_at : Nat
deriving DecidableEq

/-- `role.trim().toUpperCase()`, kept only when it is exactly SOLVER or
AFFECTED, else `null`. -/
def parseRoleFilter (roleQ : Option String) : Option Role :=
  let role := strUpper (normQuery roleQ)
  if role = "SOLVER" then some .SOLVER
  else if role = "AFFECTED" then some .AFFECTED
  else none

/-- The serialized join of one match row with the `users` table. -/
def collabItem (db : DB) (m : MatchRow) : CollabItem :=
  { user :=
      match findUser db m.user_id with
      | some u => ⟨some u.id, u.display_name⟩
      | none => ⟨none, none⟩
    role := m.role
    matched_at := m.created_at }

/-- `GET /problems/:id/users`: validate the id, filter by problem (and by
role when the filter parsed), order by match time descending, take 500, and
join each row with the matched identity. -/
def listCollaborators (db : DB) (problemId : String) (roleQ : Option String) :
    ApiResponse (List CollabItem) :=
  if ¬ isUuid problemId then .err 400 "problem id must be a uuid"
  else
    let rows := db.problem_matches.filter (fun m => m.problem_id = problemId)
    let rows :=
      match parseRoleFilter roleQ with
      | some r => rows.filter (fun m => m.role = r)
      | none => rows
    .ok (((sortDesc (fun m => m.created_at) rows).take 500).map (collabItem db))

/-! ## `GET /me/matches` (`app.ts` lines 447-493) -/

/-- A response item of `GET /me/matches`: role, match time, and the full
joined problem record. -/
structure MyMatchItem where
  role : Role
  matched_at : Nat
  problem : ProblemRow
deriving DecidableEq

/-- JS `Number(s)` on the integer fragment: optional whitespace, optional
minus sign, decimal digits.  `none` is NaN; the empty (or all-whitespace)
string converts to 0.  Non-integer numeric formats (decimals, exponents, hex,
a leading plus) are outside the modelled fragment and map to `none`. -/
def jsNumber (s : String) : Option Int :=
  match trimChars s.data with
  | [] => some 0
  | c :: ds =>
    if c = '-' then
      if ds ≠ [] ∧ ds.all (fun d => 48 ≤ d.toNat && d.toNat ≤ 57) then
        some (-(Int.ofNat (ds.foldl (fun acc d => acc * 10 + (d.toNat - 48)) 0)))
      else none
    else
      if (c :: ds).all (fun d => 48 ≤ d.toNat && d.toNat ≤ 57) then
        some (Int.ofNat ((c :: ds).foldl (fun acc d => acc * 10 + (d.toNat - 48)) 0))
      else none

/-- `Math.min(a, b)` for a possibly-NaN first argument: NaN propagates. -/
def jsMin (a : Option Int) (b : Int) : Option Int :=
  match a with
  | none => none
  | some x => some (min x b)

/-- `Math.min(Number(req.query.limit ?? 200), 500)` (`app.ts` line 450):
the effective limit handed to `.limit(...)` on the store query.  `none` in
the argument is an absent parameter; `none` in the result is NaN. -/
def meMatchesLimit (limitQ : Option String) : Option Int :=
  jsMin
    (match limitQ with
     | some s => jsNumber s
     | none => some 200)
    500

/-- The store query plus serialization of `GET /me/matches` for a concrete
row limit: the user's match rows ordered by match time descending, cut to
`limit`, left-joined with `problems`; `.filter(r => r.problems)` then drops
rows whose problem did not resolve before mapping to the response shape. -/
def myMatchesRows (db : DB) (userId : String) (limit : Nat) : List MyMatchItem :=
  (((sortDesc (fun m => m.created_at)
      (db.problem_matches.filter (fun m => m.user_id = userId))).take limit).filterMap
    (fun m => (findProblem db m.problem_id).map (fun p => ⟨m.role, m.created_at, p⟩)))

/-- `GET /me/matches`: the first component is the limit value passed to the
store query (`none` = NaN); the second is the response rows when that limit
is a nonnegative integer, and `none` when the store rejects the limit (NaN or
negative), which the route surfaces as a 500. -/
def listMyMatches (db : DB) (userId : String) (limitQ : Option String) :
    Option Int × Option (List MyMatchItem) :=
  let lim := meMatchesLimit limitQ
  (lim,
   match lim with
   | some v => if 0 ≤ v then some (myMatchesRows db userId v.toNat) else none
   | none => none)

/-! ## The uniqueness invariant (`unique (user_id, problem_id)`) -/

/-- At most one Match row per `(user_id, problem_id)` pair. -/
def MatchesUnique (ms : List MatchRow) : Prop :=
  ms.Pairwise (fun a b => ¬(a.user_id = b.user_id ∧ a.problem_id = b.problem_id))

/-- The data-model invariant of spec section 3 on a database state. -/
def MatchInv (db : DB) : Prop :=
  MatchesUnique db.problem_matches ∧
    ∀ m ∈ db.problem_matches, m.role = Role.SOLVER ∨ m.role = Role.AFFECTED

/-- States reachable from a seedless store (arbitrary users and problems, no
matches) through the two mutating match operations. -/
inductive Reachable : DB → Prop where
  | init (users : List UserRow) (problems : List ProblemRow) :
      Reachable ⟨users, problems, []⟩
  | set (db : DB) (uid pid : String) (roleQ : Option String) (fid : String)
      (now : Nat) : Reachable db → Reachable (setMatch db uid pid roleQ fid now).2
  | remove (db : DB) (uid pid : String) :
      Reachable db → Reachable (removeMatch db uid pid).2

theorem role_enum (r : Role) : r = Role.SOLVER ∨ r = Role.AFFECTED := by
  cases r <;> simp

theorem updRole_user_id (uid pid : String) (role : Role) (x : MatchRow) :
    (if matchKeyEq x uid pid then { x with role := role } else x).user_id
      = x.user_id := by
  by_cases h : matchKeyEq x uid pid <;> simp [h]

theorem updRole_problem_id (uid pid : String) (role : Role) (x : MatchRow) :
    (if matchKeyEq x uid pid then { x with role := role } else x).problem_id
      = x.problem_id := by
  by_cases h : matchKeyEq x uid pid <;> simp [h]

theorem matchKeyEq_iff {m : MatchRow} {uid pid : String} :
    matchKeyEq m uid pid = true ↔ m.user_id = uid ∧ m.problem_id = pid := by
  simp [matchKeyEq]

theorem upsertMatch_unique (ms : List MatchRow) (uid pid : String) (role : Role)
    (fid : String) (now : Nat) (h : MatchesUnique ms) :
    MatchesUnique (upsertMatch ms uid pid role fid now).2 := by
  unfold upsertMatch
  cases hfind : ms.find? (fun m => matchKeyEq m uid pid) with
  | some m =>
    simp only [MatchesUnique, List.pairwise_map]
    refine h.imp ?_
    intro a b hab
    simpa only [updRole_user_id, updRole_problem_id] using hab
  | none =>
    refine List.pairwise_append.mpr ⟨h, List.pairwise_singleton _ _, ?_⟩
    intro a ha b hb
    rcases List.mem_singleton.mp hb with rfl
    intro ⟨h1, h2⟩
    exact (List.find?_eq_none.mp hfind a ha) (matchKeyEq_iff.mpr ⟨h1, h2⟩)

theorem removeMatch_snd (db : DB) (uid pid : String) (h : isUuid pid = true) :
    (removeMatch db uid pid).2 =
      { db with
         problem_matches :=
           db.problem_matches.filter (fun m => ! matchKeyEq m uid pid) } := by
  simp [removeMatch, h]

theorem setMatch_matchesUnique (db : DB) (uid pid : String) (roleQ : Option String)
    (fid : String) (now : Nat) (h : MatchesUnique db.problem_matches) :
    MatchesUnique (setMatch db uid pid roleQ fid now).2.problem_matches := by
  unfold setMatch
  split
  · exact h
  · split
    · exact h
    · split
      · exact h
      · exact upsertMatch_unique _ _ _ _ _ _ h

theorem removeMatch_matchesUnique (db : DB) (uid pid : String)
    (h : MatchesUnique db.problem_matches) :
    MatchesUnique (removeMatch db uid pid).2.problem_matches := by
  unfold removeMatch
  split
  · exact h
  · exact h.filter _

/-- C1: at every reachable state there is at most one Match row per
`(user_id, problem_id)` pair and every row's role is SOLVER or AFFECTED;
both mutating match operations preserve this. -/
theorem spec_C1_match_invariant : ∀ db : DB, Reachable db → MatchInv db := by
  intro db h
  refine ⟨?_, fun m _ => role_enum m.role⟩
  induction h with
  | init users problems => exact List.Pairwise.nil
  | set db uid pid roleQ fid now _ ih =>
    exact setMatch_matchesUnique db uid pid roleQ fid now ih
  | remove db uid pid _ ih => exact removeMatch_matchesUnique db uid pid ih

/-! ## Concrete example data for witnesses -/

def uidA : String := "00000000-0000-4000-8000-0000000000a1"

def uidB : String := "00000000-0000-4000-8000-0000000000a2"

def pidA : String := "00000000-0000-4000-8000-0000000000b1"

def pidB : String := "00000000-0000-4000-8000-0000000000b2"

def userA : UserRow := ⟨uidA, some "Alex 01", 1⟩

def problemA : ProblemRow :=
  ⟨pidA, "Food waste in cities", "Redistribute surplus edible food",
   "Sustainability", "Paris, FR", some "FR", 2⟩

def exDb : DB :=
  { users := [userA, ⟨uidB, none, 3⟩]
    problems := [problemA, ⟨pidB, "Night transport safety", "Safer routes",
                  "Safety", "Madrid, ES", some "ES", 4⟩]
    problem_matches := [] }

/-- C1 witness: the state after one upsert from a seedless store satisfies
the invariant. -/
theorem spec_C1_match_invariant_witness :
    MatchInv (setMatch exDb uidA pidA (some "SOLVER") "f1" 10).2 :=
  spec_C1_match_invariant _
    (Reachable.set exDb uidA pidA (some "SOLVER") "f1" 10
      (Reachable.init exDb.users exDb.problems))

/-! ## C2: the upsert route -/

theorem filter_key_of_find?_unique {ms : List MatchRow} {uid pid : String}
    {m : MatchRow} (hu : MatchesUnique ms)
    (hf : ms.find? (fun x => matchKeyEq x uid pid) = some m) :
    ms.filter (fun x => matchKeyEq x uid pid) = [m] := by
  induction ms with
  | nil => simp at hf
  | cons y ys ih =>
    rcases List.pairwise_cons.mp hu with ⟨hy, hys⟩
    by_cases hky : matchKeyEq y uid pid = true
    · rw [@List.find?_cons_of_pos _ (fun x => matchKeyEq x uid pid) y ys hky] at hf
      injection hf with hf
      subst hf
      rw [@List.filter_cons_of_pos _ (fun x => matchKeyEq x uid pid) y ys hky]
      have hnil : ys.filter (fun x => matchKeyEq x uid pid) = [] := by
        refine List.filter_eq_nil_iff.mpr ?_
        intro x hx hkx
        rcases matchKeyEq_iff.mp hky with ⟨hy1, hy2⟩
        rcases matchKeyEq_iff.mp hkx with ⟨hx1, hx2⟩
        exact hy x hx ⟨hy1.trans hx1.symm, hy2.trans hx2.symm⟩
      rw [hnil]
    · rw [@List.find?_cons_of_neg _ (fun x => matchKeyEq x uid pid) y ys hky] at hf
      rw [@List.filter_cons_of_neg _ (fun x => matchKeyEq x uid pid) y ys hky]
      exact ih hys hf

theorem upsertMatch_fst_role (ms : List MatchRow) (uid pid : String)
    (role : Role) (fid : String) (now : Nat) :
    (upsertMatch ms uid pid role fid now).1.role = role := by
  unfold upsertMatch
  split <;> simp

theorem updRole_key (uid pid : String) (role : Role) (x : MatchRow) :
    matchKeyEq (if matchKeyEq x uid pid then { x with role := role } else x)
      uid pid = matchKeyEq x uid pid := by
  by_cases h : matchKeyEq x uid pid
  · rcases matchKeyEq_iff.mp h with ⟨h1, h2⟩
    simp [h, matchKeyEq, h1, h2]
  · simp [h]

theorem upsertMatch_snd_filter_key (ms : List MatchRow) (uid pid : String)
    (role : Role) (fid : String) (now : Nat) (hu : MatchesUnique ms) :
    (upsertMatch ms uid pid role fid now).2.filter
        (fun x => matchKeyEq x uid pid)
      = [(upsertMatch ms uid pid role fid now).1] := by
  unfold upsertMatch
  cases hfind : ms.find? (fun m => matchKeyEq m uid pid) with
  | some m =>
    simp only
    rw [List.filter_map]
    have hcong :
        ms.filter
            ((fun x => matchKeyEq x uid pid) ∘
              (fun x => if matchKeyEq x uid pid then { x with role := role } else x))
          = ms.filter (fun x => matchKeyEq x uid pid) :=
      List.filter_congr (fun x _ => updRole_key uid pid role x)
    rw [hcong, filter_key_of_find?_unique hu hfind]
    simp [List.find?_some hfind]
  | none =>
    simp only
    rw [List.filter_append]
    have hnil : ms.filter (fun x => matchKeyEq x uid pid) = [] :=
      List.filter_eq_nil_iff.mpr (List.find?_eq_none.mp hfind)
    rw [hnil]
    simp [matchKeyEq]

theorem setMatch_problems (db : DB) (uid pid : String) (roleQ : Option String)
    (fid : String) (now : Nat) :
    (setMatch db uid pid roleQ fid now).2.problems = db.problems := by
  unfold setMatch
  split
  · rfl
  · split
    · rfl
    · split <;> rfl

theorem setMatch_valid (db : DB) (uid pid : String) (fid : String) (now : Nat)
    (roleStr : String) (role : Role)
    (hrole : (roleStr = "SOLVER" ∧ role = Role.SOLVER) ∨
      (roleStr = "AFFECTED" ∧ role = Role.AFFECTED))
    (hid : isUuid pid = true) (hp : findProblem db pid ≠ none) :
    setMatch db uid pid (some roleStr) fid now =
      (.ok (upsertMatch db.problem_matches uid pid role fid now).1,
       { db with
          problem_matches :=
            (upsertMatch db.problem_matches uid pid role fid now).2 }) := by
  obtain ⟨p, hp⟩ := Option.ne_none_iff_exists'.mp hp
  rcases hrole with ⟨hs, hr⟩ | ⟨hs, hr⟩ <;> subst hs <;> subst hr <;>
    simp [setMatch, hid, hp]

/-- C2: `POST /problems/:id/match` 400s on a bad UUID or a bad role, 404s when
the problem is absent, and otherwise upserts on `(userId, problemId)`: SOLVER
then AFFECTED leaves exactly one row for the pair, with role AFFECTED, and
that row is the response body. -/
theorem spec_C2_setMatch_upsert :
    (∀ (db : DB) (uid pid : String) (roleQ : Option String) (fid : String)
        (now : Nat), isUuid pid = false →
      setMatch db uid pid roleQ fid now
        = (.err 400 "problem id must be a uuid", db)) ∧
    (∀ (db : DB) (uid pid : String) (roleQ : Option String) (fid : String)
        (now : Nat), isUuid pid = true →
      roleQ ≠ some "SOLVER" → roleQ ≠ some "AFFECTED" →
      setMatch db uid pid roleQ fid now
        = (.err 400 "role must be SOLVER or AFFECTED", db)) ∧
    (∀ (db : DB) (uid pid : String) (roleQ : Option String) (fid : String)
        (now : Nat), isUuid pid = true →
      roleQ = some "SOLVER" ∨ roleQ = some "AFFECTED" →
      findProblem db pid = none →
      setMatch db uid pid roleQ fid now = (.err 404 "Problem not found", db)) ∧
    (∀ (db : DB) (uid pid fid1 fid2 : String) (now1 now2 : Nat),
      MatchesUnique db.problem_matches → isUuid pid = true →
      findProblem db pid ≠ none →
      ∃ row : MatchRow,
        (setMatch (setMatch db uid pid (some "SOLVER") fid1 now1).2 uid pid
            (some "AFFECTED") fid2 now2).2.problem_matches.filter
            (fun m => matchKeyEq m uid pid) = [row] ∧
        row.role = Role.AFFECTED ∧
        (setMatch (setMatch db uid pid (some "SOLVER") fid1 now1).2 uid pid
            (some "AFFECTED") fid2 now2).1 = .ok row) := by
  refine ⟨?_, ?_, ?_, ?_⟩
  · intro db uid pid roleQ fid now h
    simp [setMatch, h]
  · intro db uid pid roleQ fid now h h1 h2
    simp [setMatch, h, h1, h2]
  · intro db uid pid roleQ fid now h hrq hp
    rcases hrq with rfl | rfl
    · simp [setMatch, h, hp]
    · simp [setMatch, h, hp]
  · intro db uid pid fid1 fid2 now1 now2 hu hid hp
    set db1 := (setMatch db uid pid (some "SOLVER") fid1 now1).2 with hdb1
    have hp1 : findProblem db1 pid ≠ none := by
      unfold findProblem
      rw [hdb1, setMatch_problems]
      exact hp
    have hu1 : MatchesUnique db1.problem_matches :=
      setMatch_matchesUnique db uid pid (some "SOLVER") fid1 now1 hu
    have h2 := setMatch_valid db1 uid pid fid2 now2 "AFFECTED" Role.AFFECTED
      (Or.inr ⟨rfl, rfl⟩) hid hp1
    refine ⟨(upsertMatch db1.problem_matches uid pid Role.AFFECTED fid2 now2).1,
      ?_, ?_, ?_⟩
    · rw [h2]
      exact upsertMatch_snd_filter_key db1.problem_matches uid pid Role.AFFECTED
        fid2 now2 hu1
    · exact upsertMatch_fst_role db1.problem_matches uid pid Role.AFFECTED
        fid2 now2
    · rw [h2]

/-- C2 witness: the four branches at concrete inputs. -/
theorem spec_C2_setMatch_upsert_witness :
    setMatch exDb uidA "nope" (some "SOLVER") "f1" 10
        = (.err 400 "problem id must be a uuid", exDb) ∧
    setMatch exDb uidA pidA (some "OTHER") "f1" 10
        = (.err 400 "role must be SOLVER or AFFECTED", exDb) ∧
    setMatch exDb uidA uidB (some "SOLVER") "f1" 10
        = (.err 404 "Problem not found", exDb) ∧
    ∃ row : MatchRow,
      (setMatch (setMatch exDb uidA pidA (some "SOLVER") "f1" 10).2 uidA pidA
          (some "AFFECTED") "f2" 11).2.problem_matches.filter
          (fun m => matchKeyEq m uidA pidA) = [row] ∧
      row.role = Role.AFFECTED ∧
      (setMatch (setMatch exDb uidA pidA (some "SOLVER") "f1" 10).2 uidA pidA
          (some "AFFECTED") "f2" 11).1 = .ok row :=
  ⟨spec_C2_setMatch_upsert.1 exDb uidA "nope" (some "SOLVER") "f1" 10 (by decide),
   spec_C2_setMatch_upsert.2.1 exDb uidA pidA (some "OTHER") "f1" 10 (by decide)
     (by decide) (by decide),
   spec_C2_setMatch_upsert.2.2.1 exDb uidA uidB (some "SOLVER") "f1" 10
     (by decide) (Or.inl rfl) (by decide),
   spec_C2_setMatch_upsert.2.2.2 exDb uidA pidA "f1" "f2" 10 11
     (List.Pairwise.nil) (by decide) (by decide)⟩

/-! ## C3, C4: the identity layer -/

theorem isUuid_ne_empty {s : String} (h : isUuid s = true) : s ≠ "" :=
  fun hs => by rw [hs] at h; exact absurd h (by decide)

/-- C3: a token issued by `POST /login` (payload `sub = userId`, `typ =
access`, 30-day expiry) verifies on `GET /me` before it expires and yields the
same user; a tampered signature or an expired token is rejected with 401. -/
theorem spec_C3_token_roundtrip :
    ∀ (db : DB) (secret : String) (now : Nat) (uid : String) (u : UserRow),
      isUuid uid = true → findUser db uid = some u →
      login db secret now (some uid)
          = .ok (jwtSign secret now uid "access", u) ∧
      (jwtSign secret now uid "access").payload
          = ⟨uid, "access", now + THIRTY_DAYS⟩ ∧
      (∀ now2 : Nat, now2 < now + THIRTY_DAYS →
        requireAuth secret now2 (some (jwtSign secret now uid "access"))
          = .ok uid) ∧
      (∀ now2 : Nat, now2 < now + THIRTY_DAYS →
        getMe db secret now2 (some (jwtSign secret now uid "access"))
          = .ok u) ∧
      (∀ now2 : Nat, now + THIRTY_DAYS ≤ now2 →
        getMe db secret now2 (some (jwtSign secret now uid "access"))
          = .err 401 "Invalid or expired token") ∧
      (∀ (t : Jwt) (now2 : Nat), t.sig ≠ (secret, t.payload) →
        getMe db secret now2 (some t)
          = .err 401 "Invalid or expired token") := by
  intro db secret now uid u huid hfind
  have hne : uid ≠ "" := isUuid_ne_empty huid
  refine ⟨?_, rfl, ?_, ?_, ?_, ?_⟩
  · simp [login, huid, hfind]
  · intro now2 h2
    simp [requireAuth, jwtVerify, jwtSign, h2, huid, hne]
  · intro now2 h2
    simp [getMe, requireAuth, jwtVerify, jwtSign, h2, huid, hne, hfind]
  · intro now2 h2
    simp [getMe, requireAuth, jwtVerify, jwtSign, Nat.not_lt.mpr h2]
  · intro t now2 hsig
    have hc : ¬(t.sig = (secret, t.payload) ∧ now2 < t.payload.exp) :=
      fun hc => hsig hc.1
    simp [getMe, requireAuth, jwtVerify, hc]

/-- C3 witness: round trip, expiry and tampering at concrete inputs. -/
theorem spec_C3_token_roundtrip_witness :
    login exDb "topsecret" 100 (some uidA)
        = .ok (jwtSign "topsecret" 100 uidA "access", userA) ∧
    getMe exDb "topsecret" 101 (some (jwtSign "topsecret" 100 uidA "access"))
        = .ok userA ∧
    getMe exDb "topsecret" (100 + THIRTY_DAYS)
        (some (jwtSign "topsecret" 100 uidA "access"))
        = .err 401 "Invalid or expired token" ∧
    getMe exDb "topsecret" 101
        (some ⟨⟨uidA, "access", 100 + THIRTY_DAYS⟩,
               ("stolen", ⟨uidA, "access", 100 + THIRTY_DAYS⟩)⟩)
        = .err 401 "Invalid or expired token" :=
  have h := spec_C3_token_roundtrip exDb "topsecret" 100 uidA userA
    (by decide) (by decide)
  ⟨h.1, h.2.2.2.1 101 (by decide), h.2.2.2.2.1 (100 + THIRTY_DAYS) (Nat.le_refl _),
   h.2.2.2.2.2 _ 101 (by decide)⟩

/-- C4: `POST /login` 400s on every userId failing the RFC 4122 v1-5 UUID
pattern, 404s on a well-formed but unknown userId, and otherwise returns the
token with the user record. -/
theorem spec_C4_login_errors :
    (∀ (db : DB) (secret : String) (now : Nat) (s : String), isUuid s = false →
      login db secret now (some s) = .err 400 "userId must be a uuid") ∧
    (∀ (db : DB) (secret : String) (now : Nat),
      login db secret now none = .err 400 "userId must be a uuid") ∧
    (∀ (db : DB) (secret : String) (now : Nat) (s : String),
      isUuid s = true → findUser db s = none →
      login db secret now (some s) = .err 404 "User not found") ∧
    (∀ (db : DB) (secret : String) (now : Nat) (s : String) (u : UserRow),
      isUuid s = true → findUser db s = some u →
      login db secret now (some s)
        = .ok (jwtSign secret now s "access", u)) := by
  refine ⟨?_, ?_, ?_, ?_⟩
  · intro db secret now s h
    simp [login, h]
  · intro db secret now
    rfl
  · intro db secret now s h hf
    simp [login, h, hf]
  · intro db secret now s u h hf
    simp [login, h, hf]

/-- C4 witness: the three branches at concrete inputs. -/
theorem spec_C4_login_errors_witness :
    login exDb "k" 5 (some "not-a-uuid") = .err 400 "userId must be a uuid" ∧
    login exDb "k" 5 (some pidB) = .err 404 "User not found" ∧
    login exDb "k" 5 (some uidA) = .ok (jwtSign "k" 5 uidA "access", userA) :=
  ⟨spec_C4_login_errors.1 exDb "k" 5 "not-a-uuid" (by decide),
   spec_C4_login_errors.2.2.1 exDb "k" 5 pidB (by decide) (by decide),
   spec_C4_login_errors.2.2.2 exDb "k" 5 uidA userA (by decide) (by decide)⟩

/-! ## C8: idempotent unmatch -/

/-- Example state holding two matches on problem A. -/
def matchA : MatchRow := ⟨"m1", uidA, pidA, Role.SOLVER, 5⟩

def exDb2 : DB :=
  { exDb with problem_matches := [matchA, ⟨"m2", uidB, pidA, Role.AFFECTED, 6⟩] }

/-- C8: `DELETE /problems/:id/match` 400s only on a malformed id; otherwise it
answers success whether or not a row existed, removes the `(userId, problemId)`
row when present, leaves the state untouched when absent, and running it twice
gives the same response and final state as running it once. -/
theorem spec_C8_removeMatch_idempotent :
    (∀ (db : DB) (uid pid : String), isUuid pid = false →
      removeMatch db uid pid = (.err 400 "problem id must be a uuid", db)) ∧
    (∀ (db : DB) (uid pid : String), isUuid pid = true →
      (removeMatch db uid pid).1 = .ok ()) ∧
    (∀ (db : DB) (uid pid : String) (m : MatchRow), isUuid pid = true →
      matchKeyEq m uid pid = true →
      m ∉ (removeMatch db uid pid).2.problem_matches) ∧
    (∀ (db : DB) (uid pid : String), isUuid pid = true →
      (∀ m ∈ db.problem_matches, matchKeyEq m uid pid = false) →
      removeMatch db uid pid = (.ok (), db)) ∧
    (∀ (db : DB) (uid pid : String),
      removeMatch (removeMatch db uid pid).2 uid pid = removeMatch db uid pid) := by
  refine ⟨?_, ?_, ?_, ?_, ?_⟩
  · intro db uid pid h
    simp [removeMatch, h]
  · intro db uid pid h
    simp [removeMatch, h]
  · intro db uid pid m h hk hm
    rw [removeMatch_snd db uid pid h] at hm
    rcases List.mem_filter.mp hm with ⟨_, hneg⟩
    rw [hk] at hneg
    exact absurd hneg (by decide)
  · intro db uid pid h habs
    have : db.problem_matches.filter (fun m => ! matchKeyEq m uid pid)
        = db.problem_matches :=
      List.filter_eq_self.mpr (fun m hm => by rw [habs m hm]; rfl)
    simp [removeMatch, h, this]
  · intro db uid pid
    by_cases h : isUuid pid = true
    · have h1 := removeMatch_snd db uid pid h
      simp only [removeMatch, h, not_true_eq_false, if_false, h1,
        List.filter_filter]
      have heq : db.problem_matches.filter
            (fun a => ! matchKeyEq a uid pid && ! matchKeyEq a uid pid)
          = db.problem_matches.filter (fun m => ! matchKeyEq m uid pid) :=
        List.filter_congr (fun m _ => by cases matchKeyEq m uid pid <;> rfl)
      rw [heq]
    · have hf : isUuid pid = false := by
        cases hc : isUuid pid
        · rfl
        · exact absurd hc h
      have h1 : removeMatch db uid pid = (.err 400 "problem id must be a uuid", db) := by
        simp [removeMatch, hf]
      rw [h1]
      simp [removeMatch, hf]

/-- C8 witness: deletion present, absent, and repeated at concrete inputs. -/
theorem spec_C8_removeMatch_idempotent_witness :
    removeMatch exDb2 uidA "nope" = (.err 400 "problem id must be a uuid", exDb2) ∧
    (removeMatch exDb2 uidA pidA).1 = .ok () ∧
    matchA ∉ (removeMatch exDb2 uidA pidA).2.problem_matches ∧
    removeMatch exDb uidA pidA = (.ok (), exDb) ∧
    removeMatch (removeMatch exDb2 uidA pidA).2 uidA pidA
      = removeMatch exDb2 uidA pidA :=
  ⟨spec_C8_removeMatch_idempotent.1 exDb2 uidA "nope" (by decide),
   spec_C8_removeMatch_idempotent.2.1 exDb2 uidA pidA (by decide),
   spec_C8_removeMatch_idempotent.2.2.1 exDb2 uidA pidA matchA (by decide)
     (by decide),
   spec_C8_removeMatch_idempotent.2.2.2.1 exDb uidA pidA (by decide) (by decide),
   spec_C8_removeMatch_idempotent.2.2.2.2 exDb2 uidA pidA⟩

/-! ## C9: the `limit` coercion on `GET /me/matches` -/

/-- C9: a non-numeric `limit` makes the effective limit NaN (not the 200
default), and that NaN is what reaches the store query; the 200 default
applies only when `limit` is absent; no lower bound is enforced, so negative
limits pass through unchanged. -/
theorem spec_C9_limit_nan :
    (∀ s : String, jsNumber s = none → meMatchesLimit (some s) = none) ∧
    jsNumber "abc" = none ∧
    meMatchesLimit none = some 200 ∧
    (∀ (db : DB) (u : String) (limitQ : Option String),
      (listMyMatches db u limitQ).1 = meMatchesLimit limitQ) ∧
    (∀ (s : String) (n : Int), jsNumber s = some n → n ≤ 500 →
      meMatchesLimit (some s) = some n) ∧
    meMatchesLimit (some "-5") = some (-5) := by
  refine ⟨?_, by decide, by decide, ?_, ?_, by decide⟩
  · intro s h
    simp [meMatchesLimit, jsMin, h]
  · intro db u limitQ
    rfl
  · intro s n h hn
    simp [meMatchesLimit, jsMin, h, min_eq_left hn]

/-- C9 witness: `limit=abc` yields NaN at the store, `limit=-5` passes
through. -/
theorem spec_C9_limit_nan_witness :
    meMatchesLimit (some "abc") = none ∧ meMatchesLimit (some "-5") = some (-5) :=
  ⟨spec_C9_limit_nan.1 "abc" (by decide),
   spec_C9_limit_nan.2.2.2.2.1 "-5" (-5) (by decide) (by decide)⟩

/-! ## C5: the search pipeline -/

theorem filterIf_eq (c : Bool) (p : α → Bool) (l : List α) :
    filterIf c p l = l.filter (fun x => !c || p x) := by
  cases c
  · simp [filterIf]
  · simp [filterIf]

/-- The conditionally-chained query filters, folded into one predicate, agree
pointwise with the spec's single conjunction. -/
theorem search_chain_pred (s c l co : String) (p : ProblemRow) :
    ((!decide (s ≠ "") || (containsCI p.title s || containsCI p.description s)) &&
      ((!decide (l ≠ "") || containsCI p.location l) &&
        ((!decide (co ≠ "") || decide (p.country_code = some co)) &&
          (!decide (c ≠ "") || decide (p.category = c)))))
      = specSearchPred s c l co p := by
  simp only [specSearchPred, decide_not, Bool.not_not, Bool.or_assoc]
  cases h1 : decide (c = "") || decide (p.category = c) <;>
    cases h2 : decide (co = "") || decide (p.country_code = some co) <;>
      cases h3 : decide (l = "") || containsCI p.location l <;>
        cases h4 : decide (s = "") ||
            (containsCI p.title s || containsCI p.description s) <;>
          simp [h1, h2, h3, h4]

/-- `GET /problems` computes exactly the spec's pipeline: filter by the
conjunction, order by creation time descending, cap at 200, annotate. -/
theorem searchProblems_spec (db : DB) (searchQ categoryQ locationQ countryQ :
    Option String) :
    searchProblems db searchQ categoryQ locationQ countryQ
      = ((sortDesc (fun p => p.created_at)
            (db.problems.filter
              (specSearchPred (normQuery searchQ) (normQuery categoryQ)
                (normQuery locationQ) (normCountry countryQ)))).take 200).map
          (annotateProblem db) := by
  unfold searchProblems
  simp only [filterIf_eq, List.filter_filter]
  have heq := List.filter_congr
    (fun (p : ProblemRow) (_ : p ∈ db.problems) =>
      search_chain_pred (normQuery searchQ) (normQuery categoryQ)
        (normQuery locationQ) (normCountry countryQ) p)
  rw [heq]

/-- C5: `GET /problems` applies the conjunction of the four optional trimmed
filters (with title/description disjunction inside the search conjunct only),
returns at most 200 problems in descending creation order, and annotates each
with the number of Match rows referencing it. -/
theorem spec_C5_searchProblems :
    (∀ (db : DB) (sq cq lq coq : Option String),
      searchProblems db sq cq lq coq
        = ((sortDesc (fun p => p.created_at)
              (db.problems.filter
                (specSearchPred (normQuery sq) (normQuery cq) (normQuery lq)
                  (normCountry coq)))).take 200).map (annotateProblem db)) ∧
    (∀ (db : DB) (sq cq lq coq : Option String),
      (searchProblems db sq cq lq coq).length ≤ 200) ∧
    (∀ (db : DB) (sq cq lq coq : Option String),
      (searchProblems db sq cq lq coq).Pairwise
        (fun a b => b.created_at ≤ a.created_at)) ∧
    (∀ (db : DB) (sq cq lq coq : Option String) (it : ProblemItem),
      it ∈ searchProblems db sq cq lq coq →
      it.collaboratorCount = matchCount db it.id ∧
      specSearchPred (normQuery sq) (normQuery cq) (normQuery lq)
        (normCountry coq)
        ⟨it.id, it.title, it.description, it.category, it.location,
         it.country_code, it.created_at⟩ = true) ∧
    (∀ (db : DB) (pid : String),
      (∀ m ∈ db.problem_matches, m.problem_id ≠ pid) → matchCount db pid = 0) := by
  refine ⟨searchProblems_spec, ?_, ?_, ?_, ?_⟩
  · intro db sq cq lq coq
    rw [searchProblems_spec, List.length_map, List.length_take]
    exact min_le_left _ _
  · intro db sq cq lq coq
    rw [searchProblems_spec]
    rw [List.pairwise_map]
    exact ((sortDesc_sorted _ _).sublist (List.take_sublist _ _)).imp (fun h => h)
  · intro db sq cq lq coq it hit
    rw [searchProblems_spec] at hit
    rcases List.mem_map.mp hit with ⟨p, hp, rfl⟩
    have hp2 : p ∈ db.problems.filter
        (specSearchPred (normQuery sq) (normQuery cq) (normQuery lq)
          (normCountry coq)) :=
      mem_sortDesc.mp (List.take_subset _ _ hp)
    exact ⟨rfl, (List.mem_filter.mp hp2).2⟩
  · intro db pid h
    unfold matchCount
    have : db.problem_matches.filter (fun m => m.problem_id = pid) = [] :=
      List.filter_eq_nil_iff.mpr
        (fun m hm => by simpa using h m hm)
    rw [this]
    rfl

/-- C5 witness: a concrete search on a two-problem store. -/
theorem spec_C5_searchProblems_witness :
    (annotateProblem exDb2 problemA).collaboratorCount
        = matchCount exDb2 (annotateProblem exDb2 problemA).id ∧
    specSearchPred (normQuery (some "food")) (normQuery none) (normQuery none)
      (normCountry none)
      ⟨(annotateProblem exDb2 problemA).id, (annotateProblem exDb2 problemA).title,
       (annotateProblem exDb2 problemA).description,
       (annotateProblem exDb2 problemA).category,
       (annotateProblem exDb2 problemA).location,
       (annotateProblem exDb2 problemA).country_code,
       (annotateProblem exDb2 problemA).created_at⟩ = true :=
  spec_C5_searchProblems.2.2.2.1 exDb2 (some "food") none none none
    (annotateProblem exDb2 problemA) (by decide)

/-! ## C7: collaborators of a problem -/

/-- C7: `GET /problems/:id/users` 400s on a malformed problem id; the role
filter is matched case-insensitively against SOLVER/AFFECTED and any other
value is treated as absent; with role SOLVER it returns only SOLVER rows of
that problem, joined with the matched identity, at most 500, ordered by match
time descending. -/
theorem spec_C7_listCollaborators :
    (∀ (db : DB) (pid : String) (roleQ : Option String), isUuid pid = false →
      listCollaborators db pid roleQ = .err 400 "problem id must be a uuid") ∧
    parseRoleFilter (some "solver") = some Role.SOLVER ∧
    parseRoleFilter (some " Affected ") = some Role.AFFECTED ∧
    (∀ (db : DB) (pid s : String), parseRoleFilter (some s) = none →
      listCollaborators db pid (some s) = listCollaborators db pid none) ∧
    (∀ (db : DB) (pid : String), isUuid pid = true →
      ∃ items : List CollabItem,
        listCollaborators db pid (some "SOLVER") = .ok items ∧
        items.length ≤ 500 ∧
        items.Pairwise (fun a b => b.matched_at ≤ a.matched_at) ∧
        ∀ it ∈ items, it.role = Role.SOLVER ∧
          ∃ m ∈ db.problem_matches, m.problem_id = pid ∧ m.role = Role.SOLVER ∧
            it = collabItem db m) := by
  refine ⟨?_, by decide, by decide, ?_, ?_⟩
  · intro db pid roleQ h
    simp [listCollaborators, h]
  · intro db pid s h
    have hn : parseRoleFilter (some s) = parseRoleFilter none := by rw [h]; rfl
    unfold listCollaborators
    rw [hn]
  · intro db pid h
    refine ⟨((sortDesc (fun m => m.created_at)
        ((db.problem_matches.filter (fun m => m.problem_id = pid)).filter
          (fun m => m.role = Role.SOLVER))).take 500).map (collabItem db),
      ?_, ?_, ?_, ?_⟩
    · unfold listCollaborators
      rw [if_neg (not_not_intro h)]
      rfl
    · rw [List.length_map, List.length_take]
      exact min_le_left _ _
    · rw [List.pairwise_map]
      exact ((sortDesc_sorted _ _).sublist (List.take_sublist _ _)).imp
        (fun hab => hab)
    · intro it hit
      rcases List.mem_map.mp hit with ⟨m, hm, rfl⟩
      have hm2 := mem_sortDesc.mp (List.take_subset _ _ hm)
      rcases List.mem_filter.mp hm2 with ⟨hm3, hrole⟩
      rcases List.mem_filter.mp hm3 with ⟨hm4, hpid⟩
      have hrole' : m.role = Role.SOLVER := by simpa using hrole
      have hpid' : m.problem_id = pid := by simpa using hpid
      exact ⟨hrole', m, hm4, hpid', hrole', rfl⟩

/-- C7 witness: a malformed id, an ignored junk role filter, and a concrete
SOLVER-filtered listing. -/
theorem spec_C7_listCollaborators_witness :
    listCollaborators exDb2 "nope" (some "SOLVER")
        = .err 400 "problem id must be a uuid" ∧
    listCollaborators exDb2 pidA (some "banana")
        = listCollaborators exDb2 pidA none ∧
    ∃ items : List CollabItem,
      listCollaborators exDb2 pidA (some "SOLVER") = .ok items ∧
      items.length ≤ 500 ∧
      items.Pairwise (fun a b => b.matched_at ≤ a.matched_at) ∧
      ∀ it ∈ items, it.role = Role.SOLVER ∧
        ∃ m ∈ exDb2.problem_matches, m.problem_id = pidA ∧ m.role = Role.SOLVER ∧
          it = collabItem exDb2 m :=
  ⟨spec_C7_listCollaborators.1 exDb2 "nope" (some "SOLVER") (by decide),
   spec_C7_listCollaborators.2.2.2.1 exDb2 pidA "banana" (by decide),
   spec_C7_listCollaborators.2.2.2.2 exDb2 pidA (by decide)⟩

/-! ## C6: the authenticated user's matches -/

theorem myMatchItem_matched_at {db : DB} {m : MatchRow} {it : MyMatchItem}
    (h : (findProblem db m.problem_id).map
        (fun p => (⟨m.role, m.created_at, p⟩ : MyMatchItem)) = some it) :
    it.matched_at = m.created_at := by
  rcases Option.map_eq_some'.mp h with ⟨p, _, rfl⟩
  rfl

/-- Seven matches of user A, each with a resolving problem. -/
def prob (c : Char) (t : Nat) : ProblemRow :=
  ⟨⟨"00000000-0000-4000-8000-0000000000c".data ++ [c]⟩,
   "Problem", "Description", "Category", "Location", none, t⟩

def exDb7 : DB :=
  { users := [userA]
    problems := [prob '1' 21, prob '2' 22, prob '3' 23, prob '4' 24,
                 prob '5' 25, prob '6' 26, prob '7' 27]
    problem_matches :=
      [⟨"n1", uidA, (prob '1' 21).id, Role.SOLVER, 11⟩,
       ⟨"n2", uidA, (prob '2' 22).id, Role.SOLVER, 12⟩,
       ⟨"n3", uidA, (prob '3' 23).id, Role.SOLVER, 13⟩,
       ⟨"n4", uidA, (prob '4' 24).id, Role.AFFECTED, 14⟩,
       ⟨"n5", uidA, (prob '5' 25).id, Role.SOLVER, 15⟩,
       ⟨"n6", uidA, (prob '6' 26).id, Role.SOLVER, 16⟩,
       ⟨"n7", uidA, (prob '7' 27).id, Role.AFFECTED, 17⟩] }

/-- C6: the limit defaults to 200 when absent and is clamped to 500; the rows
are at most `limit` of the user's matches, ordered by match time descending,
joined with the full problem record, silently dropping rows whose problem
does not resolve; concretely, limit 3 on a user with 7 matches yields exactly
3 rows, most recent first. -/
theorem spec_C6_listMyMatches :
    meMatchesLimit none = some 200 ∧
    (∀ (s : String) (n : Int), jsNumber s = some n →
      meMatchesLimit (some s) = some (min n 500)) ∧
    (∀ (db : DB) (uid : String) (lim : Nat),
      (myMatchesRows db uid lim).length ≤ lim) ∧
    (∀ (db : DB) (uid : String) (lim : Nat),
      (myMatchesRows db uid lim).Pairwise
        (fun a b => b.matched_at ≤ a.matched_at)) ∧
    (∀ (db : DB) (uid : String) (lim : Nat) (it : MyMatchItem),
      it ∈ myMatchesRows db uid lim →
      ∃ m ∈ db.problem_matches, m.user_id = uid ∧ it.role = m.role ∧
        it.matched_at = m.created_at ∧
        findProblem db m.problem_id = some it.problem) ∧
    ((listMyMatches exDb7 uidA (some "3")).2
        = some (myMatchesRows exDb7 uidA 3) ∧
      (myMatchesRows exDb7 uidA 3).length = 3 ∧
      (myMatchesRows exDb7 uidA 3).map (fun it => it.matched_at)
        = [17, 16, 15]) := by
  refine ⟨by decide, ?_, ?_, ?_, ?_, by decide, by decide, by decide⟩
  · intro s n h
    simp [meMatchesLimit, jsMin, h]
  · intro db uid lim
    refine le_trans (List.length_filterMap_le _ _) ?_
    rw [List.length_take]
    exact min_le_left _ _
  · intro db uid lim
    refine List.pairwise_filterMap.mpr
      (((sortDesc_sorted _ _).sublist (List.take_sublist _ _)).imp ?_)
    intro a b hab x hx y hy
    rw [Option.mem_def] at hx hy
    rw [myMatchItem_matched_at hx, myMatchItem_matched_at hy]
    exact hab
  · intro db uid lim it hit
    rcases List.mem_filterMap.mp hit with ⟨m, hm, hf⟩
    have hm2 := mem_sortDesc.mp (List.take_subset _ _ hm)
    rcases List.mem_filter.mp hm2 with ⟨hm3, huid⟩
    rcases Option.map_eq_some'.mp hf with ⟨p, hp, rfl⟩
    exact ⟨m, hm3, by simpa using huid, rfl, rfl, hp⟩

/-- C6 witness: clamping, limit bound, and a concrete returned row. -/
theorem spec_C6_listMyMatches_witness :
    meMatchesLimit (some "700") = some 500 ∧
    (myMatchesRows exDb7 uidA 3).length ≤ 3 ∧
    ∃ m ∈ exDb7.problem_matches, m.user_id = uidA ∧
      (⟨Role.AFFECTED, 17, prob '7' 27⟩ : MyMatchItem).role = m.role ∧
      (⟨Role.AFFECTED, 17, prob '7' 27⟩ : MyMatchItem).matched_at
        = m.created_at ∧
      findProblem exDb7 m.problem_id
        = some (⟨Role.AFFECTED, 17, prob '7' 27⟩ : MyMatchItem).problem :=
  ⟨by
    have h := spec_C6_listMyMatches.2.1 "700" 700 (by decide)
    simpa using h,
   spec_C6_listMyMatches.2.2.1 exDb7 uidA 3,
   spec_C6_listMyMatches.2.2.2.2.1 exDb7 uidA 3 ⟨Role.AFFECTED, 17, prob '7' 27⟩
     (by decide)⟩

/-! ## C10: unresolved joins -/

/-- A state holding a match whose user id resolves to no identity. -/
def exDbOrphan : DB :=
  { users := [userA]
    problems := [problemA]
    problem_matches := [⟨"m9", uidB, pidA, Role.AFFECTED, 7⟩] }

/-- C10: `GET /problems/:id/users` keeps a row whose joined identity does not
resolve, serializing `user.id` and `user.display_name` as null, whereas
`GET /me/matches` only ever returns rows whose joined problem resolved. -/
theorem spec_C10_null_user_join :
    (∀ (db : DB) (pid : String) (m : MatchRow), isUuid pid = true →
      m ∈ db.problem_matches → m.problem_id = pid →
      (db.problem_matches.filter (fun x => x.problem_id = pid)).length ≤ 500 →
      findUser db m.user_id = none →
      ∃ items : List CollabItem,
        listCollaborators db pid none = .ok items ∧
        (⟨⟨none, none⟩, m.role, m.created_at⟩ : CollabItem) ∈ items) ∧
    (∀ (db : DB) (uid : String) (lim : Nat) (it : MyMatchItem),
      it ∈ myMatchesRows db uid lim → ∃ p ∈ db.problems, it.problem = p) := by
  constructor
  · intro db pid m h hm hpid hlen hu
    refine ⟨((sortDesc (fun m => m.created_at)
        (db.problem_matches.filter (fun m => m.problem_id = pid))).take 500).map
        (collabItem db), ?_, ?_⟩
    · unfold listCollaborators
      rw [if_neg (not_not_intro h)]
      rfl
    · have hfull : (sortDesc (fun m => m.created_at)
          (db.problem_matches.filter (fun m => m.problem_id = pid))).take 500
          = sortDesc (fun m => m.created_at)
              (db.problem_matches.filter (fun m => m.problem_id = pid)) := by
        refine List.take_of_length_le ?_
        rw [length_sortDesc]
        exact hlen
      rw [hfull]
      have hmem : m ∈ sortDesc (fun m => m.created_at)
          (db.problem_matches.filter (fun m => m.problem_id = pid)) :=
        mem_sortDesc.mpr (List.mem_filter.mpr ⟨hm, by simpa using hpid⟩)
      have hitem : collabItem db m
          = (⟨⟨none, none⟩, m.role, m.created_at⟩ : CollabItem) := by
        simp [collabItem, hu]
      exact hitem ▸ List.mem_map_of_mem (collabItem db) hmem
  · intro db uid lim it hit
    rcases List.mem_filterMap.mp hit with ⟨m, _, hf⟩
    rcases Option.map_eq_some'.mp hf with ⟨p, hp, rfl⟩
    exact ⟨p, List.mem_of_find?_eq_some hp, rfl⟩

/-- C10 witness: an orphaned match is served with null user fields, and a
returned me/matches row's problem is in the store. -/
theorem spec_C10_null_user_join_witness :
    (∃ items : List CollabItem,
      listCollaborators exDbOrphan pidA none = .ok items ∧
      (⟨⟨none, none⟩,
        (⟨"m9", uidB, pidA, Role.AFFECTED, 7⟩ : MatchRow).role,
        (⟨"m9", uidB, pidA, Role.AFFECTED, 7⟩ : MatchRow).created_at⟩ :
          CollabItem) ∈ items) ∧
    ∃ p ∈ exDb7.problems,
      (⟨Role.AFFECTED, 17, prob '7' 27⟩ : MyMatchItem).problem = p :=
  ⟨spec_C10_null_user_join.1 exDbOrphan pidA ⟨"m9", uidB, pidA, Role.AFFECTED, 7⟩
     (by decide) (by decide) rfl (by decide) (by decide),
   spec_C10_null_user_join.2 exDb7 uidA 3 ⟨Role.AFFECTED, 17, prob '7' 27⟩
     (by decide)⟩

end WeSolve
